import Mathlib

/-!
Verification of the event-sourced projection and write-model slice of the
repository: the org-member projection reducers (specified by
`TestOrgMemberProjection_reduces` and §4.4 of the spec) and the JWT IDP
config write model (`internal/command/jwt_config_model.go`).
-/

/-- SQL-ish column values appearing in projection statements. -/
inductive Value where
  | s (v : String)
  | arr (v : List String)
  | n (v : Nat)
  | b (v : Bool)
deriving DecidableEq, Repr

/-- A column assignment or predicate atom: column name paired with a value. -/
abbrev Col := String × Value

/-- Abstract write statements produced by projection reducers (§4.4):
insert with column values, update of columns on rows matching a conjunctive
equality predicate, delete of rows matching such a predicate. -/
inductive Stmt where
  | insert (table : String) (cols : List Col)
  | update (table : String) (cols : List Col) (pred : List Col)
  | delete (table : String) (pred : List Col)
deriving DecidableEq, Repr

/-- Errors of the error taxonomy that the modelled code can raise. -/
inductive ZError where
  | invalidArgument
  | internal
deriving DecidableEq, Repr

/-- The read-model table name of the org-member projection, as asserted by
the test's expected SQL. -/
def OrgMemberProjectionTable : String := "projections.org_members3"

/-- A row of `projections.org_members3`, with the columns the test's
expected INSERT enumerates. -/
structure OrgMemberRow where
  user_id : String
  user_resource_owner : String
  owner_removed_user : Bool
  roles : List String
  creation_date : Nat
  change_date : Nat
  sequence : Nat
  resource_owner : String
  instance_id : String
  owner_removed : Bool
  org_id : String
deriving DecidableEq, Repr

/-- Read a named column out of a row. -/
def OrgMemberRow.getCol (r : OrgMemberRow) (c : String) : Option Value :=
  if c = "user_id" then some (.s r.user_id)
  else if c = "user_resource_owner" then some (.s r.user_resource_owner)
  else if c = "owner_removed_user" then some (.b r.owner_removed_user)
  else if c = "roles" then some (.arr r.roles)
  else if c = "creation_date" then some (.n r.creation_date)
  else if c = "change_date" then some (.n r.change_date)
  else if c = "sequence" then some (.n r.sequence)
  else if c = "resource_owner" then some (.s r.resource_owner)
  else if c = "instance_id" then some (.s r.instance_id)
  else if c = "owner_removed" then some (.b r.owner_removed)
  else if c = "org_id" then some (.s r.org_id)
  else none

/-- Write one named column of a row; an unknown column name or a value of
the wrong shape leaves the row unchanged. -/
def OrgMemberRow.setCol (r : OrgMemberRow) (cv : Col) : OrgMemberRow :=
  match cv with
  | ("user_id", .s v) => { r with user_id := v }
  | ("user_resource_owner", .s v) => { r with user_resource_owner := v }
  | ("owner_removed_user", .b v) => { r with owner_removed_user := v }
  | ("roles", .arr v) => { r with roles := v }
  | ("creation_date", .n v) => { r with creation_date := v }
  | ("change_date", .n v) => { r with change_date := v }
  | ("sequence", .n v) => { r with sequence := v }
  | ("resource_owner", .s v) => { r with resource_owner := v }
  | ("instance_id", .s v) => { r with instance_id := v }
  | ("owner_removed", .b v) => { r with owner_removed := v }
  | ("org_id", .s v) => { r with org_id := v }
  | _ => r

/-- The all-zero row used as starting point when decoding an insert. -/
def OrgMemberRow.zero : OrgMemberRow :=
  { user_id := "", user_resource_owner := "", owner_removed_user := false,
    roles := [], creation_date := 0, change_date := 0, sequence := 0,
    resource_owner := "", instance_id := "", owner_removed := false,
    org_id := "" }

/-- A row satisfies a conjunctive equality predicate. -/
def rowMatches (pred : List Col) (r : OrgMemberRow) : Bool :=
  pred.all (fun cv => decide (r.getCol cv.1 = some cv.2))

/-- Apply one statement to a table (list of rows): insert appends the
decoded row, update rewrites the named columns of every matching row,
delete drops every matching row. -/
def applyStmt (table : List OrgMemberRow) : Stmt → List OrgMemberRow
  | .insert _ cols => table ++ [cols.foldl OrgMemberRow.setCol OrgMemberRow.zero]
  | .update _ cols pred =>
      table.map (fun r => if rowMatches pred r then cols.foldl OrgMemberRow.setCol r else r)
  | .delete _ pred => table.filter (fun r => ! rowMatches pred r)

/-- Apply a list of statements left to right. -/
def applyStmts (table : List OrgMemberRow) (stmts : List Stmt) : List OrgMemberRow :=
  stmts.foldl applyStmt table

/-- The per-row effect of an update statement: rewrite the named columns
when the row matches the predicate, otherwise leave the row alone. -/
def updRow (cols pred : List Col) (r : OrgMemberRow) : OrgMemberRow :=
  if rowMatches pred r then cols.foldl OrgMemberRow.setCol r else r

/-- The payload / concrete type of an event as seen by the org-member
projection: the discriminant plus the typed payload fields. The `other`
case stands for any event of a concrete type none of the reducers handle. -/
inductive OrgMemberEventData where
  | memberAdded (userId : String) (roles : List String)
  | memberChanged (userId : String) (roles : List String)
  | memberCascadeRemoved (userId : String)
  | memberRemoved (userId : String)
  | userRemoved
  | orgRemoved
  | other (eventType : String)
deriving DecidableEq, Repr

/-- An event together with the metadata the reducers read (§3 data model). -/
structure Event where
  aggregateType : String
  aggregateID : String
  resourceOwner : String
  instanceID : String
  sequence : Nat
  previousSequence : Nat
  creationDate : Nat
  data : OrgMemberEventData
deriving DecidableEq, Repr

/-- Modelled from the spec: the org-member projection. Its Go implementation
is absent from the sources (only its test is present); the lookup of the
member user's resource owner, which the real code performs with an
eventstore filter, is modelled as a function field. -/
structure orgMemberProjection where
  userOwner : String → Option String

/-- Modelled from the spec: `orgMemberProjection.reduceAdded` is absent from
the sources; per §4.4 and the test, a `MemberAddedEvent` produces exactly
one insert of a row keyed by (userID, orgID), while an event of any other
concrete type is an invalid-argument error. Columns follow the test's
expected INSERT. -/
def orgMemberProjection.reduceAdded (p : orgMemberProjection) (e : Event) :
    Except ZError (List Stmt) :=
  match e.data with
  | .memberAdded userId roles =>
    match p.userOwner userId with
    | none => .error .internal
    | some uro =>
      .ok [.insert OrgMemberProjectionTable
        [("user_id", .s userId),
         ("user_resource_owner", .s uro),
         ("owner_removed_user", .b false),
         ("roles", .arr roles),
         ("creation_date", .n e.creationDate),
         ("change_date", .n e.creationDate),
         ("sequence", .n e.sequence),
         ("resource_owner", .s e.resourceOwner),
         ("instance_id", .s e.instanceID),
         ("owner_removed", .b false),
         ("org_id", .s e.aggregateID)]]
  | _ => .error .invalidArgument

/-- Modelled from the spec: `orgMemberProjection.reduceChanged` is absent
from the sources; per §4.4 and the test, a `MemberChangedEvent` produces
exactly one update of roles, change_date and sequence by key. -/
def orgMemberProjection.reduceChanged (_p : orgMemberProjection) (e : Event) :
    Except ZError (List Stmt) :=
  match e.data with
  | .memberChanged userId roles =>
    .ok [.update OrgMemberProjectionTable
      [("roles", .arr roles),
       ("change_date", .n e.creationDate),
       ("sequence", .n e.sequence)]
      [("user_id", .s userId), ("org_id", .s e.aggregateID)]]
  | _ => .error .invalidArgument

/-- Modelled from the spec: `orgMemberProjection.reduceCascadeRemoved` is
absent from the sources; per §4.4 and the test it deletes by key. -/
def orgMemberProjection.reduceCascadeRemoved (_p : orgMemberProjection) (e : Event) :
    Except ZError (List Stmt) :=
  match e.data with
  | .memberCascadeRemoved userId =>
    .ok [.delete OrgMemberProjectionTable
      [("user_id", .s userId), ("org_id", .s e.aggregateID)]]
  | _ => .error .invalidArgument

/-- Modelled from the spec: `orgMemberProjection.reduceRemoved` is absent
from the sources; per §4.4 and the test it deletes by key. -/
def orgMemberProjection.reduceRemoved (_p : orgMemberProjection) (e : Event) :
    Except ZError (List Stmt) :=
  match e.data with
  | .memberRemoved userId =>
    .ok [.delete OrgMemberProjectionTable
      [("user_id", .s userId), ("org_id", .s e.aggregateID)]]
  | _ => .error .invalidArgument

/-- Modelled from the spec: `orgMemberProjection.reduceUserRemoved` is
absent from the sources; per §4.4 and the test, a `UserRemovedEvent` (on the
user aggregate, so the removed user's identifier is the event's aggregate
ID) deletes every membership row of that user, with no org condition. -/
def orgMemberProjection.reduceUserRemoved (_p : orgMemberProjection) (e : Event) :
    Except ZError (List Stmt) :=
  match e.data with
  | .userRemoved =>
    .ok [.delete OrgMemberProjectionTable [("user_id", .s e.aggregateID)]]
  | _ => .error .invalidArgument

/-- Modelled from the spec: `orgMemberProjection.reduceOrgRemoved` is absent
from the sources; per §4.4 and the test, an `OrgRemovedEvent` produces two
updates setting the tombstone flags (plus change_date and sequence) on rows
owned by the removed org and on rows whose member user is owned by it. -/
def orgMemberProjection.reduceOrgRemoved (_p : orgMemberProjection) (e : Event) :
    Except ZError (List Stmt) :=
  match e.data with
  | .orgRemoved =>
    .ok [.update OrgMemberProjectionTable
          [("change_date", .n e.creationDate),
           ("sequence", .n e.sequence),
           ("owner_removed", .b true)]
          [("resource_owner", .s e.aggregateID)],
         .update OrgMemberProjectionTable
          [("change_date", .n e.creationDate),
           ("sequence", .n e.sequence),
           ("owner_removed_user", .b true)]
          [("user_resource_owner", .s e.aggregateID)]]
  | _ => .error .invalidArgument

/-- `domain.IDPConfigState`: the lifecycle enumeration of IDP configs; the
zero value is the unspecified state. -/
inductive IDPConfigState where
  | unspecified
  | active
  | inactive
  | removed
deriving DecidableEq, Repr

/-- The idpconfig events the JWT config write model's switch handles,
plus `other` for any event of a concrete type outside that set.
`JWTConfigChangedEvent` carries the changed attributes as optionals:
an absent attribute was not changed. -/
inductive IDPConfigEvent where
  | jwtConfigAdded (idpConfigID issuer keysEndpoint : String)
  | jwtConfigChanged (idpConfigID : String) (issuer keysEndpoint : Option String)
  | idpConfigDeactivated
  | idpConfigReactivated
  | idpConfigRemoved
  | other (eventType : String)
deriving DecidableEq, Repr

/-- `command.JWTConfigWriteModel`: the typed fields reduced from the event
stream (`jwt_config_model.go`). The zero value has empty strings and the
unspecified state. -/
structure JWTConfigWriteModel where
  IDPConfigID : String := ""
  Issuer : String := ""
  KeysEndpoint : String := ""
  State : IDPConfigState := .unspecified
deriving DecidableEq, Repr

/-- `reduceConfigAddedEvent` (`jwt_config_model.go:37`): sets all four
fields from the added event. -/
def JWTConfigWriteModel.reduceConfigAddedEvent (wm : JWTConfigWriteModel)
    (idpConfigID issuer keysEndpoint : String) : JWTConfigWriteModel :=
  { wm with IDPConfigID := idpConfigID, Issuer := issuer,
            KeysEndpoint := keysEndpoint, State := .active }

/-- `reduceConfigChangedEvent` (`jwt_config_model.go:44`): overwrites
exactly the fields present in the changed event. -/
def JWTConfigWriteModel.reduceConfigChangedEvent (wm : JWTConfigWriteModel)
    (issuer keysEndpoint : Option String) : JWTConfigWriteModel :=
  let wm := match issuer with
    | some v => { wm with Issuer := v }
    | none => wm
  match keysEndpoint with
    | some v => { wm with KeysEndpoint := v }
    | none => wm

/-- One case of the switch of `JWTConfigWriteModel.Reduce`
(`jwt_config_model.go:18`); an event of any other concrete type falls
through the switch unchanged. -/
def JWTConfigWriteModel.reduceEvent (wm : JWTConfigWriteModel) :
    IDPConfigEvent → JWTConfigWriteModel
  | .jwtConfigAdded id iss keys => wm.reduceConfigAddedEvent id iss keys
  | .jwtConfigChanged _ iss keys => wm.reduceConfigChangedEvent iss keys
  | .idpConfigDeactivated => { wm with State := .inactive }
  | .idpConfigReactivated => { wm with State := .active }
  | .idpConfigRemoved => { wm with State := .removed }
  | .other _ => wm

/-- `JWTConfigWriteModel.Reduce` (`jwt_config_model.go:18`): folds the
appended events in order; the switch never fails, so the Go error result is
always nil, modelled as always `.ok`. -/
def JWTConfigWriteModel.Reduce (wm : JWTConfigWriteModel)
    (events : List IDPConfigEvent) : Except ZError JWTConfigWriteModel :=
  .ok (events.foldl JWTConfigWriteModel.reduceEvent wm)

/-- The zero-valued write model a command handler starts a replay from. -/
def JWTConfigWriteModel.zero : JWTConfigWriteModel := {}

/-- The projection fixture used by witnesses: the member user `user-id`
belongs to organization `org1`, as in the test's filter setup. -/
def testProjection : orgMemberProjection :=
  ⟨fun u => if u = "user-id" then some "org1" else none⟩

/-- An event with the metadata the test helper fabricates (aggregate
`agg-id`, resource owner `ro-id`, instance `instance-id`, sequence 15,
previous sequence 10) and the given payload. -/
def mkTestEvent (d : OrgMemberEventData) : Event :=
  { aggregateType := "org", aggregateID := "agg-id", resourceOwner := "ro-id",
    instanceID := "instance-id", sequence := 15, previousSequence := 10,
    creationDate := 42, data := d }

/-- A sample pre-existing membership row owned by org `agg-id`. -/
def sampleRow : OrgMemberRow :=
  { user_id := "user-id", user_resource_owner := "org1",
    owner_removed_user := false, roles := ["role"], creation_date := 1,
    change_date := 1, sequence := 11, resource_owner := "agg-id",
    instance_id := "instance-id", owner_removed := false, org_id := "agg-id" }

lemma applyStmts_pair (table : List OrgMemberRow) (s1 s2 : Stmt) :
    applyStmts table [s1, s2] = applyStmt (applyStmt table s1) s2 := rfl

lemma applyStmts_single (table : List OrgMemberRow) (s : Stmt) :
    applyStmts table [s] = applyStmt table s := rfl

lemma rowMatches_resOwner (v : String) (r : OrgMemberRow) :
    rowMatches [("resource_owner", .s v)] r = true ↔ r.resource_owner = v := by
  simp [rowMatches, OrgMemberRow.getCol]

lemma rowMatches_userResOwner (v : String) (r : OrgMemberRow) :
    rowMatches [("user_resource_owner", .s v)] r = true ↔
      r.user_resource_owner = v := by
  simp [rowMatches, OrgMemberRow.getCol]

lemma setCols_ownerRm (cd seq : Nat) (r : OrgMemberRow) :
    [(("change_date" : String), Value.n cd), ("sequence", .n seq),
      ("owner_removed", .b true)].foldl OrgMemberRow.setCol r =
    { r with change_date := cd, sequence := seq, owner_removed := true } := rfl

lemma setCols_ownerRmUser (cd seq : Nat) (r : OrgMemberRow) :
    [(("change_date" : String), Value.n cd), ("sequence", .n seq),
      ("owner_removed_user", .b true)].foldl OrgMemberRow.setCol r =
    { r with change_date := cd, sequence := seq, owner_removed_user := true } := rfl


lemma setCol_user_id (r : OrgMemberRow) (v : String) :
    r.setCol ("user_id", .s v) = { r with user_id := v } := rfl

lemma setCol_user_resource_owner (r : OrgMemberRow) (v : String) :
    r.setCol ("user_resource_owner", .s v) = { r with user_resource_owner := v } := rfl

lemma setCol_owner_removed_user (r : OrgMemberRow) (v : Bool) :
    r.setCol ("owner_removed_user", .b v) = { r with owner_removed_user := v } := rfl

lemma setCol_roles (r : OrgMemberRow) (v : List String) :
    r.setCol ("roles", .arr v) = { r with roles := v } := rfl

lemma setCol_creation_date (r : OrgMemberRow) (v : Nat) :
    r.setCol ("creation_date", .n v) = { r with creation_date := v } := rfl

lemma setCol_change_date (r : OrgMemberRow) (v : Nat) :
    r.setCol ("change_date", .n v) = { r with change_date := v } := rfl

lemma setCol_sequence (r : OrgMemberRow) (v : Nat) :
    r.setCol ("sequence", .n v) = { r with sequence := v } := rfl

lemma setCol_resource_owner (r : OrgMemberRow) (v : String) :
    r.setCol ("resource_owner", .s v) = { r with resource_owner := v } := rfl

lemma setCol_instance_id (r : OrgMemberRow) (v : String) :
    r.setCol ("instance_id", .s v) = { r with instance_id := v } := rfl

lemma setCol_owner_removed (r : OrgMemberRow) (v : Bool) :
    r.setCol ("owner_removed", .b v) = { r with owner_removed := v } := rfl

lemma setCol_org_id (r : OrgMemberRow) (v : String) :
    r.setCol ("org_id", .s v) = { r with org_id := v } := rfl

lemma applyStmt_update (table : List OrgMemberRow) (t : String)
    (cols pred : List Col) :
    applyStmt table (.update t cols pred) = table.map (updRow cols pred) := rfl

lemma applyStmt_delete (table : List OrgMemberRow) (t : String)
    (pred : List Col) :
    applyStmt table (.delete t pred) =
      table.filter (fun r => ! rowMatches pred r) := rfl

/-- The per-row effect of the pair of tombstone updates produced for an
`OrgRemoved` event: a row owned by the removed org gets `owner_removed`
set, with its roles untouched. -/
lemma orgRemoved_row_effect (cd seq : Nat) (agg : String) (r : OrgMemberRow)
    (h : r.resource_owner = agg) :
    (updRow [(("change_date" : String), Value.n cd), ("sequence", .n seq),
        ("owner_removed_user", .b true)] [("user_resource_owner", .s agg)]
      (updRow [(("change_date" : String), Value.n cd), ("sequence", .n seq),
        ("owner_removed", .b true)] [("resource_owner", .s agg)] r)).owner_removed
        = true ∧
    (updRow [(("change_date" : String), Value.n cd), ("sequence", .n seq),
        ("owner_removed_user", .b true)] [("user_resource_owner", .s agg)]
      (updRow [(("change_date" : String), Value.n cd), ("sequence", .n seq),
        ("owner_removed", .b true)] [("resource_owner", .s agg)] r)).roles
        = r.roles := by
  have h1 : rowMatches [("resource_owner", .s agg)] r = true :=
    (rowMatches_resOwner agg r).mpr h
  by_cases h2 : r.user_resource_owner = agg <;>
    simp [updRow, h1, setCol_change_date, setCol_sequence, setCol_owner_removed,
      setCol_owner_removed_user, rowMatches_userResOwner, h2]

/-- C1: reducing an `OrgRemoved` event in the org-member projection yields
exactly two update statements and no delete — one setting the
`owner_removed` tombstone (plus change_date and sequence) on rows whose
resource_owner is the removed org, one setting `owner_removed_user` (plus
change_date and sequence) on rows whose user_resource_owner is the removed
org — and applying them leaves every membership row owned by the removed
org with `owner_removed = true` and its roles column unchanged. -/
theorem reduceOrgRemoved_tombstones (p : orgMemberProjection) (e : Event)
    (hd : e.data = .orgRemoved) :
    p.reduceOrgRemoved e = .ok
      [.update OrgMemberProjectionTable
        [("change_date", .n e.creationDate), ("sequence", .n e.sequence),
         ("owner_removed", .b true)]
        [("resource_owner", .s e.aggregateID)],
       .update OrgMemberProjectionTable
        [("change_date", .n e.creationDate), ("sequence", .n e.sequence),
         ("owner_removed_user", .b true)]
        [("user_resource_owner", .s e.aggregateID)]] ∧
    ∀ (table : List OrgMemberRow) (i : Nat) (r q : OrgMemberRow),
      table[i]? = some r →
      (applyStmts table
        [.update OrgMemberProjectionTable
          [("change_date", .n e.creationDate), ("sequence", .n e.sequence),
           ("owner_removed", .b true)]
          [("resource_owner", .s e.aggregateID)],
         .update OrgMemberProjectionTable
          [("change_date", .n e.creationDate), ("sequence", .n e.sequence),
           ("owner_removed_user", .b true)]
          [("user_resource_owner", .s e.aggregateID)]])[i]? = some q →
      r.resource_owner = e.aggregateID →
      q.owner_removed = true ∧ q.roles = r.roles := by
  obtain ⟨aT, aID, rO, iID, sq, pS, cD, d⟩ := e
  cases hd
  refine ⟨rfl, ?_⟩
  intro table i r q hr hq hro
  have happ : applyStmts table
      [.update OrgMemberProjectionTable
        [("change_date", .n cD), ("sequence", .n sq), ("owner_removed", .b true)]
        [("resource_owner", .s aID)],
       .update OrgMemberProjectionTable
        [("change_date", .n cD), ("sequence", .n sq), ("owner_removed_user", .b true)]
        [("user_resource_owner", .s aID)]] =
      table.map (fun x =>
        updRow [("change_date", .n cD), ("sequence", .n sq),
            ("owner_removed_user", .b true)] [("user_resource_owner", .s aID)]
          (updRow [("change_date", .n cD), ("sequence", .n sq),
            ("owner_removed", .b true)] [("resource_owner", .s aID)] x)) := by
    simp only [applyStmts, List.foldl, applyStmt_update, List.map_map]
    rfl
  rw [happ, List.getElem?_map, hr] at hq
  simp only [Option.map_some', Option.some.injEq] at hq
  subst hq
  exact orgRemoved_row_effect cD sq aID r hro

/-- Witness for C1: the tombstone theorem applied at the test fixture
(org `agg-id` removed at sequence 15 over a table holding `sampleRow`). -/
theorem reduceOrgRemoved_tombstones_witness :
    (testProjection.reduceOrgRemoved (mkTestEvent .orgRemoved) = .ok
      [.update OrgMemberProjectionTable
        [("change_date", .n 42), ("sequence", .n 15), ("owner_removed", .b true)]
        [("resource_owner", .s "agg-id")],
       .update OrgMemberProjectionTable
        [("change_date", .n 42), ("sequence", .n 15), ("owner_removed_user", .b true)]
        [("user_resource_owner", .s "agg-id")]]) ∧
    ({ sampleRow with change_date := 42, sequence := 15, owner_removed := true } :
        OrgMemberRow).owner_removed = true ∧
    ({ sampleRow with change_date := 42, sequence := 15, owner_removed := true } :
        OrgMemberRow).roles = sampleRow.roles := by
  have h := reduceOrgRemoved_tombstones testProjection (mkTestEvent .orgRemoved) rfl
  exact ⟨h.1, h.2 [sampleRow] 0 sampleRow
    { sampleRow with change_date := 42, sequence := 15, owner_removed := true }
    rfl rfl rfl⟩

/-- C2: reducing a `UserRemoved` event (on the user aggregate, whose
aggregate ID is the removed user) yields exactly one delete statement whose
predicate is `user_id` alone, and applying it removes precisely the
membership rows of that user, across all organizations. -/
theorem reduceUserRemoved_deletes_all (p : orgMemberProjection) (e : Event)
    (hd : e.data = .userRemoved) :
    p.reduceUserRemoved e = .ok
      [.delete OrgMemberProjectionTable [("user_id", .s e.aggregateID)]] ∧
    ∀ (table : List OrgMemberRow) (r : OrgMemberRow),
      r ∈ applyStmts table
          [.delete OrgMemberProjectionTable [("user_id", .s e.aggregateID)]] ↔
        r ∈ table ∧ r.user_id ≠ e.aggregateID := by
  obtain ⟨aT, aID, rO, iID, sq, pS, cD, d⟩ := e
  cases hd
  refine ⟨rfl, ?_⟩
  intro table r
  simp [applyStmts, applyStmt, List.mem_filter, rowMatches,
    OrgMemberRow.getCol]

/-- Witness for C2: a `UserRemoved` event for user `agg-id` at the test
fixture, with the membership predicate instantiated at `sampleRow`. -/
theorem reduceUserRemoved_deletes_all_witness :
    (testProjection.reduceUserRemoved (mkTestEvent .userRemoved) = .ok
      [.delete OrgMemberProjectionTable [("user_id", .s "agg-id")]]) ∧
    (sampleRow ∈ applyStmts [sampleRow]
        [.delete OrgMemberProjectionTable [("user_id", .s "agg-id")]] ↔
      sampleRow ∈ [sampleRow] ∧ sampleRow.user_id ≠ "agg-id") := by
  have h := reduceUserRemoved_deletes_all testProjection
    (mkTestEvent .userRemoved) rfl
  exact ⟨h.1, h.2 [sampleRow] sampleRow⟩

lemma rowMatches_key (u o : String) (r : OrgMemberRow) :
    rowMatches [("user_id", .s u), ("org_id", .s o)] r = true ↔
      r.user_id = u ∧ r.org_id = o := by
  simp [rowMatches, OrgMemberRow.getCol]

/-- C3: a `MemberAddedEvent` with payload userId `user-id`, roles
`[role]`, at sequence 15 on org aggregate `org1` reduces to exactly one
insert — keyed by (`user-id`, `org1`), roles `[role]`, sequence 15 — and
applying it appends exactly that row. -/
theorem reduceAdded_insert (p : orgMemberProjection) (e : Event) (uro : String)
    (hd : e.data = .memberAdded "user-id" ["role"])
    (ha : e.aggregateID = "org1") (hs : e.sequence = 15)
    (hu : p.userOwner "user-id" = some uro) :
    p.reduceAdded e = .ok [.insert OrgMemberProjectionTable
      [("user_id", .s "user-id"), ("user_resource_owner", .s uro),
       ("owner_removed_user", .b false), ("roles", .arr ["role"]),
       ("creation_date", .n e.creationDate), ("change_date", .n e.creationDate),
       ("sequence", .n 15), ("resource_owner", .s e.resourceOwner),
       ("instance_id", .s e.instanceID), ("owner_removed", .b false),
       ("org_id", .s "org1")]] ∧
    ∀ table : List OrgMemberRow,
      applyStmts table [.insert OrgMemberProjectionTable
        [("user_id", .s "user-id"), ("user_resource_owner", .s uro),
         ("owner_removed_user", .b false), ("roles", .arr ["role"]),
         ("creation_date", .n e.creationDate), ("change_date", .n e.creationDate),
         ("sequence", .n 15), ("resource_owner", .s e.resourceOwner),
         ("instance_id", .s e.instanceID), ("owner_removed", .b false),
         ("org_id", .s "org1")]] =
      table ++
        [{ user_id := "user-id", user_resource_owner := uro,
           owner_removed_user := false, roles := ["role"],
           creation_date := e.creationDate, change_date := e.creationDate,
           sequence := 15, resource_owner := e.resourceOwner,
           instance_id := e.instanceID, owner_removed := false,
           org_id := "org1" }] := by
  obtain ⟨aT, aID, rO, iID, sq, pS, cD, d⟩ := e
  subst hd; subst ha; subst hs
  refine ⟨?_, ?_⟩
  · simp [orgMemberProjection.reduceAdded, hu]
  · intro table
    rfl

/-- Witness for C3 at the scenario's concrete event. -/
theorem reduceAdded_insert_witness :
    (testProjection.reduceAdded
      { aggregateType := "org", aggregateID := "org1", resourceOwner := "ro-id",
        instanceID := "instance-id", sequence := 15, previousSequence := 10,
        creationDate := 42, data := .memberAdded "user-id" ["role"] } =
      .ok [.insert OrgMemberProjectionTable
        [("user_id", .s "user-id"), ("user_resource_owner", .s "org1"),
         ("owner_removed_user", .b false), ("roles", .arr ["role"]),
         ("creation_date", .n 42), ("change_date", .n 42),
         ("sequence", .n 15), ("resource_owner", .s "ro-id"),
         ("instance_id", .s "instance-id"), ("owner_removed", .b false),
         ("org_id", .s "org1")]]) ∧
    applyStmts [] [.insert OrgMemberProjectionTable
        [("user_id", .s "user-id"), ("user_resource_owner", .s "org1"),
         ("owner_removed_user", .b false), ("roles", .arr ["role"]),
         ("creation_date", .n 42), ("change_date", .n 42),
         ("sequence", .n 15), ("resource_owner", .s "ro-id"),
         ("instance_id", .s "instance-id"), ("owner_removed", .b false),
         ("org_id", .s "org1")]] =
      [] ++
        [{ user_id := "user-id", user_resource_owner := "org1",
           owner_removed_user := false, roles := ["role"], creation_date := 42,
           change_date := 42, sequence := 15, resource_owner := "ro-id",
           instance_id := "instance-id", owner_removed := false,
           org_id := "org1" }] := by
  have h := reduceAdded_insert testProjection
    { aggregateType := "org", aggregateID := "org1", resourceOwner := "ro-id",
      instanceID := "instance-id", sequence := 15, previousSequence := 10,
      creationDate := 42, data := .memberAdded "user-id" ["role"] }
    "org1" rfl rfl rfl rfl
  exact ⟨h.1, h.2 []⟩

/-- C4: a `MemberChangedEvent` reduces to exactly one update statement that
sets only roles, change_date and sequence of the row keyed by
(userID, orgID); applying it maps the row with that key to the same row
with just those three columns rewritten and leaves every row with a
different key identical. -/
theorem reduceChanged_frame (p : orgMemberProjection) (e : Event)
    (uid : String) (roles : List String)
    (hd : e.data = .memberChanged uid roles) :
    p.reduceChanged e = .ok [.update OrgMemberProjectionTable
      [("roles", .arr roles), ("change_date", .n e.creationDate),
       ("sequence", .n e.sequence)]
      [("user_id", .s uid), ("org_id", .s e.aggregateID)]] ∧
    ∀ table : List OrgMemberRow,
      applyStmts table [.update OrgMemberProjectionTable
        [("roles", .arr roles), ("change_date", .n e.creationDate),
         ("sequence", .n e.sequence)]
        [("user_id", .s uid), ("org_id", .s e.aggregateID)]] =
      table.map (fun r =>
        if r.user_id = uid ∧ r.org_id = e.aggregateID then
          { r with roles := roles, change_date := e.creationDate,
                   sequence := e.sequence }
        else r) := by
  obtain ⟨aT, aID, rO, iID, sq, pS, cD, d⟩ := e
  subst hd
  refine ⟨rfl, ?_⟩
  intro table
  have hfun : ∀ r : OrgMemberRow,
      updRow [("roles", .arr roles), ("change_date", .n cD), ("sequence", .n sq)]
        [("user_id", .s uid), ("org_id", .s aID)] r =
      if r.user_id = uid ∧ r.org_id = aID then
        { r with roles := roles, change_date := cD, sequence := sq }
      else r := by
    intro r
    rw [updRow]
    by_cases hm : r.user_id = uid ∧ r.org_id = aID
    · rw [if_pos ((rowMatches_key uid aID r).mpr hm), if_pos hm]
      rfl
    · rw [if_neg (fun hh => hm ((rowMatches_key uid aID r).mp hh)), if_neg hm]
  calc applyStmts table [.update OrgMemberProjectionTable
        [("roles", .arr roles), ("change_date", .n cD), ("sequence", .n sq)]
        [("user_id", .s uid), ("org_id", .s aID)]]
      = table.map (updRow
          [("roles", .arr roles), ("change_date", .n cD), ("sequence", .n sq)]
          [("user_id", .s uid), ("org_id", .s aID)]) := rfl
    _ = table.map (fun r =>
          if r.user_id = uid ∧ r.org_id = aID then
            { r with roles := roles, change_date := cD, sequence := sq }
          else r) := by
        exact List.map_congr_left (fun r _ => hfun r)

/-- Witness for C4: the scenario's changed event at sequence 15 over a
table holding `sampleRow` (the matching row, key (`user-id`, `agg-id`)). -/
theorem reduceChanged_frame_witness :
    (testProjection.reduceChanged
      (mkTestEvent (.memberChanged "user-id" ["role", "changed"])) =
      .ok [.update OrgMemberProjectionTable
        [("roles", .arr ["role", "changed"]), ("change_date", .n 42),
         ("sequence", .n 15)]
        [("user_id", .s "user-id"), ("org_id", .s "agg-id")]]) ∧
    applyStmts [sampleRow] [.update OrgMemberProjectionTable
        [("roles", .arr ["role", "changed"]), ("change_date", .n 42),
         ("sequence", .n 15)]
        [("user_id", .s "user-id"), ("org_id", .s "agg-id")]] =
      [sampleRow].map (fun r =>
        if r.user_id = "user-id" ∧ r.org_id = "agg-id" then
          { r with roles := ["role", "changed"], change_date := 42,
                   sequence := 15 }
        else r) := by
  have h := reduceChanged_frame testProjection
    (mkTestEvent (.memberChanged "user-id" ["role", "changed"]))
    "user-id" ["role", "changed"] rfl
  exact ⟨h.1, h.2 [sampleRow]⟩

/-- C10: every per-event reducer of the org-member projection, handed an
event whose concrete type is not the one it handles, returns an
InvalidArgument error (and hence no statement). -/
theorem reducers_reject_wrong_event (p : orgMemberProjection) (e : Event) :
    ((∀ u rs, e.data ≠ .memberAdded u rs) →
      p.reduceAdded e = .error .invalidArgument) ∧
    ((∀ u rs, e.data ≠ .memberChanged u rs) →
      p.reduceChanged e = .error .invalidArgument) ∧
    ((∀ u, e.data ≠ .memberCascadeRemoved u) →
      p.reduceCascadeRemoved e = .error .invalidArgument) ∧
    ((∀ u, e.data ≠ .memberRemoved u) →
      p.reduceRemoved e = .error .invalidArgument) ∧
    (e.data ≠ .userRemoved → p.reduceUserRemoved e = .error .invalidArgument) ∧
    (e.data ≠ .orgRemoved → p.reduceOrgRemoved e = .error .invalidArgument) := by
  obtain ⟨aT, aID, rO, iID, sq, pS, cD, d⟩ := e
  refine ⟨?_, ?_, ?_, ?_, ?_, ?_⟩ <;> intro hne <;> cases d <;>
    first
      | rfl
      | exact absurd rfl (hne _ _)
      | exact absurd rfl (hne _)
      | exact absurd rfl hne

/-- Witness for C10: all six reducers reject the generic base event the
test feeds them first. -/
theorem reducers_reject_wrong_event_witness :
    testProjection.reduceAdded (mkTestEvent (.other "base")) =
      .error .invalidArgument ∧
    testProjection.reduceChanged (mkTestEvent (.other "base")) =
      .error .invalidArgument ∧
    testProjection.reduceCascadeRemoved (mkTestEvent (.other "base")) =
      .error .invalidArgument ∧
    testProjection.reduceRemoved (mkTestEvent (.other "base")) =
      .error .invalidArgument ∧
    testProjection.reduceUserRemoved (mkTestEvent (.other "base")) =
      .error .invalidArgument ∧
    testProjection.reduceOrgRemoved (mkTestEvent (.other "base")) =
      .error .invalidArgument := by
  have h := reducers_reject_wrong_event testProjection (mkTestEvent (.other "base"))
  exact ⟨h.1 (fun u rs hh => OrgMemberEventData.noConfusion hh),
         h.2.1 (fun u rs hh => OrgMemberEventData.noConfusion hh),
         h.2.2.1 (fun u hh => OrgMemberEventData.noConfusion hh),
         h.2.2.2.1 (fun u hh => OrgMemberEventData.noConfusion hh),
         h.2.2.2.2.1 (fun hh => OrgMemberEventData.noConfusion hh),
         h.2.2.2.2.2 (fun hh => OrgMemberEventData.noConfusion hh)⟩

/-- C5 counterexample: a per-event reduction function of the org-member
projection, given an event whose type is outside the set it handles, does
not ignore it — it returns an InvalidArgument error, exactly as the test
asserts for the generic base event. -/
theorem reduction_error_on_unrecognized_event :
    testProjection.reduceAdded (mkTestEvent (.other "base")) =
      .error .invalidArgument := rfl

/-- C5 amended: for the write-model reduction, an event whose type is
outside the declared set is ignored (appending it never changes the
result) and reduction never produces an error. -/
theorem jwtReduce_ignores_unrecognized (wm : JWTConfigWriteModel)
    (es : List IDPConfigEvent) (t : String) :
    JWTConfigWriteModel.Reduce wm (es ++ [.other t]) =
      JWTConfigWriteModel.Reduce wm es ∧
    JWTConfigWriteModel.Reduce wm es =
      .ok (es.foldl JWTConfigWriteModel.reduceEvent wm) := by
  constructor
  · simp [JWTConfigWriteModel.Reduce, JWTConfigWriteModel.reduceEvent]
  · rfl

/-- C6 counterexample: `JWTConfigAddedEvent` is not one of the three
lifecycle event types, yet it changes the write model's State (from
Inactive back to Active at this input). -/
theorem jwtState_changed_by_added :
    (JWTConfigWriteModel.reduceEvent
      { IDPConfigID := "config-id", Issuer := "issuer",
        KeysEndpoint := "keys", State := .inactive }
      (.jwtConfigAdded "config-id" "issuer2" "keys2")).State = .active ∧
    IDPConfigState.active ≠ .inactive := ⟨rfl, by decide⟩

/-- C6 amended: State is set to Active by `JWTConfigAddedEvent`, to
Inactive by `IDPConfigDeactivatedEvent`, to Active by
`IDPConfigReactivatedEvent`, to Removed by `IDPConfigRemovedEvent`, and no
other event type (`JWTConfigChangedEvent` or an unrecognized type) changes
State. -/
theorem jwtState_transitions (wm : JWTConfigWriteModel) :
    (∀ id iss keys,
      (wm.reduceEvent (.jwtConfigAdded id iss keys)).State = .active) ∧
    (wm.reduceEvent .idpConfigDeactivated).State = .inactive ∧
    (wm.reduceEvent .idpConfigReactivated).State = .active ∧
    (wm.reduceEvent .idpConfigRemoved).State = .removed ∧
    (∀ id iss keys,
      (wm.reduceEvent (.jwtConfigChanged id iss keys)).State = wm.State) ∧
    (∀ t, (wm.reduceEvent (.other t)).State = wm.State) := by
  refine ⟨fun id iss keys => rfl, rfl, rfl, rfl, fun id iss keys => ?_,
    fun t => rfl⟩
  rcases iss with _ | v <;> rcases keys with _ | w <;> rfl

/-- C7: reducing a `JWTConfigChangedEvent` overwrites exactly the fields
present in the payload — an absent Issuer or KeysEndpoint keeps its prior
value — and never touches IDPConfigID or State. -/
theorem jwtConfigChanged_partial_overwrite (wm : JWTConfigWriteModel)
    (id : String) (iss keys : Option String) :
    (wm.reduceEvent (.jwtConfigChanged id iss keys)).Issuer =
      iss.getD wm.Issuer ∧
    (wm.reduceEvent (.jwtConfigChanged id iss keys)).KeysEndpoint =
      keys.getD wm.KeysEndpoint ∧
    (wm.reduceEvent (.jwtConfigChanged id iss keys)).IDPConfigID =
      wm.IDPConfigID ∧
    (wm.reduceEvent (.jwtConfigChanged id iss keys)).State = wm.State := by
  rcases iss with _ | v <;> rcases keys with _ | w <;> exact ⟨rfl, rfl, rfl, rfl⟩

/-- C8: reducing the empty event stream yields the zero-valued write model:
empty IDPConfigID, Issuer and KeysEndpoint, and the unspecified State. -/
theorem jwtReduce_empty_stream :
    JWTConfigWriteModel.zero.Reduce [] =
      .ok { IDPConfigID := "", Issuer := "", KeysEndpoint := "",
            State := .unspecified } := rfl

/-- C9: write-model reduction is deterministic — two independent replays of
the same event list, each from the zero-valued write model, yield identical
results. -/
theorem jwtReduce_deterministic (es : List IDPConfigEvent)
    (r1 r2 : Except ZError JWTConfigWriteModel)
    (h1 : JWTConfigWriteModel.zero.Reduce es = r1)
    (h2 : JWTConfigWriteModel.zero.Reduce es = r2) : r1 = r2 :=
  h1.symm.trans h2

/-- Witness for C9: both replays of a one-event stream produce the
deactivated model. -/
theorem jwtReduce_deterministic_witness :
    (Except.ok
      { IDPConfigID := "", Issuer := "", KeysEndpoint := "",
        State := IDPConfigState.inactive } :
      Except ZError JWTConfigWriteModel) =
    .ok
      { IDPConfigID := "", Issuer := "", KeysEndpoint := "",
        State := IDPConfigState.inactive } :=
  jwtReduce_deterministic [.idpConfigDeactivated] _ _ rfl rfl
